import Mathlib

/-!
Verification of the persistence core of the DuckDB-OPFS todo-list
repository (`src/database.ts`, with the UI guard from `src/main.ts`).

The embedding models the embedded engine as an explicit table-plus-sequence
state, each exported function of `database.ts` as a Lean function over that
state, and the asynchronous engine calls that can throw (worker
instantiation, connection open, statement execution, checkpoint, connection
close, engine termination) through an environment of failure flags.  Each
operation additionally returns the ordered trace of engine statements it
attempted, so that claims about the durable-write protocol (mutation
followed by an explicit CHECKPOINT) and about the absence of database
access can be stated directly.
-/

namespace DuckDbTodo

/-- Mirrors the `TodoItem` interface of `src/database.ts`: one row of the
`todos` table.  Timestamps are modelled as naturals. -/
structure TodoItem where
  id : Nat
  content : String
  completed : Bool
  created_at : Nat
  updated_at : Nat
deriving Repr, DecidableEq

/-- The in-engine state behind a live `AsyncDuckDB` handle: the rows of the
`todos` table and the next value of the `todos_id_seq` sequence. -/
structure EngineState where
  todos : List TodoItem
  seqNext : Nat
deriving Repr, DecidableEq

/-- Mirrors the `DatabaseState` interface of `src/database.ts`: the engine
handle (`db`, null when uninitialized or closed) and the persistence flag. -/
structure DatabaseState where
  db : Option EngineState
  isOpfsSupported : Bool
deriving Repr, DecidableEq

/-- The engine statements a `database.ts` operation can issue on a
connection, recorded in execution order. -/
inductive Stmt where
  | connect
  | insertTodo (content : String)
  | selectAll
  | updateToggle (todoId : Nat)
  | deleteAll
  | countCompleted
  | deleteCompleted
  | checkpoint
  | close
  | terminate
deriving Repr, DecidableEq

/-- The errors the TypeScript code can throw, by observable kind: the
`Database not initialized` guard error, the rethrown engine failures of
each engine call, and the wrapped bootstrap failure of
`initializeDatabase`. -/
inductive DbError where
  | notInitialized
  | connectionFailure
  | statementFailure
  | checkpointFailure
  | closeFailure
  | terminateFailure
  | bootstrapError
deriving Repr, DecidableEq

/-- Failure environment for one operation: which of the awaited engine
calls throw when executed. -/
structure Env where
  connectFails : Bool
  stmtFails : Bool
  checkpointFails : Bool
  closeFails : Bool
  terminateFails : Bool
deriving Repr, DecidableEq

/-- The fully successful environment: no engine call throws. -/
def Env.ok : Env := ⟨false, false, false, false, false⟩

/-- An environment under which every engine call an operation performs
succeeds (engine termination is not used by the record-store operations,
so its flag is left unconstrained). -/
def Env.allOk (e : Env) : Prop :=
  e.connectFails = false ∧ e.stmtFails = false ∧
  e.checkpointFails = false ∧ e.closeFails = false

instance (e : Env) : Decidable e.allOk := by
  unfold Env.allOk; infer_instance

/-- Embeds `addTodoItem` of `src/database.ts`: guard on a null handle, open
a connection, run the parameterized INSERT drawing the id from
`todos_id_seq`, issue CHECKPOINT, close the connection in the `finally`
block.  A failure of the statement leaves the table unchanged; a failure of
the checkpoint or of the close leaves the inserted row in the engine (the
insert had already executed) and rethrows. -/
def addTodoItem (env : Env) (st : DatabaseState) (content : String) (now : Nat) :
    Except DbError Unit × DatabaseState × List Stmt :=
  match st.db with
  | none => (.error .notInitialized, st, [])
  | some eng =>
    if env.connectFails then
      (.error .connectionFailure, st, [.connect])
    else if env.stmtFails then
      if env.closeFails then
        (.error .closeFailure, st, [.connect, .insertTodo content, .close])
      else
        (.error .statementFailure, st, [.connect, .insertTodo content, .close])
    else
      let row : TodoItem :=
        { id := eng.seqNext, content := content, completed := false,
          created_at := now, updated_at := now }
      let eng2 : EngineState := ⟨eng.todos ++ [row], eng.seqNext + 1⟩
      let st2 : DatabaseState := { st with db := some eng2 }
      let tr : List Stmt := [.connect, .insertTodo content, .checkpoint, .close]
      if env.checkpointFails then
        if env.closeFails then (.error .closeFailure, st2, tr)
        else (.error .checkpointFailure, st2, tr)
      else if env.closeFails then
        (.error .closeFailure, st2, tr)
      else
        (.ok (), st2, tr)

/-- The ORDER BY created_at DESC of the SELECT in `getTodoItems`, modelled
by a merge sort under the reversed order on `created_at`. -/
def sortByCreatedDesc (l : List TodoItem) : List TodoItem :=
  l.mergeSort (fun a b => Nat.ble b.created_at a.created_at)

/-- Embeds `getTodoItems` of `src/database.ts`: guard on a null handle,
open a connection, run the ordered SELECT, close the connection.  The rows
come back ordered by `created_at` descending and the state is untouched. -/
def getTodoItems (env : Env) (st : DatabaseState) :
    Except DbError (List TodoItem) × DatabaseState × List Stmt :=
  match st.db with
  | none => (.error .notInitialized, st, [])
  | some eng =>
    if env.connectFails then
      (.error .connectionFailure, st, [.connect])
    else if env.stmtFails then
      if env.closeFails then
        (.error .closeFailure, st, [.connect, .selectAll, .close])
      else
        (.error .statementFailure, st, [.connect, .selectAll, .close])
    else if env.closeFails then
      (.error .closeFailure, st, [.connect, .selectAll, .close])
    else
      (.ok (sortByCreatedDesc eng.todos), st, [.connect, .selectAll, .close])

/-- Row transformation of the UPDATE in `toggleTodoItem`: on the matching
id, flip `completed` and stamp `updated_at`; other rows are untouched. -/
def toggleRow (todoId : Nat) (now : Nat) (r : TodoItem) : TodoItem :=
  if r.id = todoId then { r with completed := !r.completed, updated_at := now }
  else r

/-- Embeds `toggleTodoItem` of `src/database.ts`: guard on a null handle,
open a connection, run the parameterized UPDATE flipping `completed` and
setting `updated_at` on the matching row, issue CHECKPOINT, close the
connection.  An id matching no row updates zero rows and is not an
error. -/
def toggleTodoItem (env : Env) (st : DatabaseState) (todoId : Nat) (now : Nat) :
    Except DbError Unit × DatabaseState × List Stmt :=
  match st.db with
  | none => (.error .notInitialized, st, [])
  | some eng =>
    if env.connectFails then
      (.error .connectionFailure, st, [.connect])
    else if env.stmtFails then
      if env.closeFails then
        (.error .closeFailure, st, [.connect, .updateToggle todoId, .close])
      else
        (.error .statementFailure, st, [.connect, .updateToggle todoId, .close])
    else
      let eng2 : EngineState := ⟨eng.todos.map (toggleRow todoId now), eng.seqNext⟩
      let st2 : DatabaseState := { st with db := some eng2 }
      let tr : List Stmt := [.connect, .updateToggle todoId, .checkpoint, .close]
      if env.checkpointFails then
        if env.closeFails then (.error .closeFailure, st2, tr)
        else (.error .checkpointFailure, st2, tr)
      else if env.closeFails then
        (.error .closeFailure, st2, tr)
      else
        (.ok (), st2, tr)

/-- Embeds `clearTodoItems` of `src/database.ts`: guard on a null handle,
open a connection, DELETE every row, issue CHECKPOINT, close the
connection. -/
def clearTodoItems (env : Env) (st : DatabaseState) :
    Except DbError Unit × DatabaseState × List Stmt :=
  match st.db with
  | none => (.error .notInitialized, st, [])
  | some eng =>
    if env.connectFails then
      (.error .connectionFailure, st, [.connect])
    else if env.stmtFails then
      if env.closeFails then
        (.error .closeFailure, st, [.connect, .deleteAll, .close])
      else
        (.error .statementFailure, st, [.connect, .deleteAll, .close])
    else
      let eng2 : EngineState := ⟨[], eng.seqNext⟩
      let st2 : DatabaseState := { st with db := some eng2 }
      let tr : List Stmt := [.connect, .deleteAll, .checkpoint, .close]
      if env.checkpointFails then
        if env.closeFails then (.error .closeFailure, st2, tr)
        else (.error .checkpointFailure, st2, tr)
      else if env.closeFails then
        (.error .closeFailure, st2, tr)
      else
        (.ok (), st2, tr)

/-- Embeds `clearCompletedTodoItems` of `src/database.ts`: guard on a null
handle, open a connection, COUNT the completed rows, DELETE the completed
rows, issue CHECKPOINT, close the connection, and return the count taken
before the deletion. -/
def clearCompletedTodoItems (env : Env) (st : DatabaseState) :
    Except DbError Nat × DatabaseState × List Stmt :=
  match st.db with
  | none => (.error .notInitialized, st, [])
  | some eng =>
    if env.connectFails then
      (.error .connectionFailure, st, [.connect])
    else if env.stmtFails then
      if env.closeFails then
        (.error .closeFailure, st, [.connect, .countCompleted, .close])
      else
        (.error .statementFailure, st, [.connect, .countCompleted, .close])
    else
      let deletedCount := (eng.todos.filter (fun r => r.completed)).length
      let eng2 : EngineState := ⟨eng.todos.filter (fun r => !r.completed), eng.seqNext⟩
      let st2 : DatabaseState := { st with db := some eng2 }
      let tr : List Stmt :=
        [.connect, .countCompleted, .deleteCompleted, .checkpoint, .close]
      if env.checkpointFails then
        if env.closeFails then (.error .closeFailure, st2, tr)
        else (.error .checkpointFailure, st2, tr)
      else if env.closeFails then
        (.error .closeFailure, st2, tr)
      else
        (.ok deletedCount, st2, tr)

/-- Embeds `closeDatabase` of `src/database.ts`: a null handle returns at
once; otherwise open a connection, attempt one CHECKPOINT whose failure is
caught and only logged, close the connection, terminate the engine and set
the handle to null.  A failure of the connection open, of the close or of
the termination is rethrown by the outer catch and leaves the handle
untouched. -/
def closeDatabase (env : Env) (st : DatabaseState) :
    Except DbError Unit × DatabaseState × List Stmt :=
  match st.db with
  | none => (.ok (), st, [])
  | some _ =>
    if env.connectFails then
      (.error .connectionFailure, st, [.connect])
    else if env.closeFails then
      (.error .closeFailure, st, [.connect, .checkpoint, .close])
    else if env.terminateFails then
      (.error .terminateFailure, st, [.connect, .checkpoint, .close, .terminate])
    else
      (.ok (), { st with db := none }, [.connect, .checkpoint, .close, .terminate])

/-- Caller options of `initializeDatabase`; only the database path matters
to the embedded control flow. -/
structure DatabaseOptions where
  databasePath : Option String := none
deriving Repr, DecidableEq

/-- Failure environment of one bootstrap run: the OPFS capability probe,
whether engine instantiation throws, whether the durable (OPFS) open
throws, whether the in-memory open throws, whether schema creation throws,
and the engine contents found when the durable open succeeds. -/
structure InitEnv where
  opfsSupported : Bool
  instantiateFails : Bool
  opfsOpenFails : Bool
  memOpenFails : Bool
  schemaFails : Bool
  opfsFile : EngineState
deriving Repr, DecidableEq

/-- A fresh engine right after `createDatabaseSchema` on an empty
database: empty `todos` table, sequence starting at 1. -/
def freshEngine : EngineState := ⟨[], 1⟩

/-- Model of the JavaScript `String.prototype.startsWith` used by the
`dbPath.startsWith` check of `initializeDatabase`: a prefix test on the
character sequence. -/
def strStartsWith (s pre : String) : Bool :=
  pre.data.isPrefixOf s.data

/-- Embeds `initializeDatabase` of `src/database.ts`: probe OPFS,
instantiate the engine, attempt the durable open when supported and an
`opfs://` path was given (falling back silently to an in-memory open on
failure), otherwise open in memory, then apply the schema.  Every failure
other than the durable-open one reaches the outer catch and is rethrown as
the wrapped bootstrap error. -/
def initializeDatabase (env : InitEnv) (options : DatabaseOptions) :
    Except DbError DatabaseState :=
  let opfsSupported := env.opfsSupported
  if env.instantiateFails then .error .bootstrapError
  else
    let dbPath := options.databasePath.getD ("opfs://test.db")
    let opened : Except Unit (EngineState × Bool) :=
      if opfsSupported && strStartsWith dbPath ("opfs://") then
        if env.opfsOpenFails then
          if env.memOpenFails then .error () else .ok (freshEngine, false)
        else .ok (env.opfsFile, true)
      else
        if env.memOpenFails then .error () else .ok (freshEngine, false)
    match opened with
    | .error _ => .error .bootstrapError
    | .ok (eng, actuallyUsingOpfs) =>
      if env.schemaFails then .error .bootstrapError
      else .ok { db := some eng, isOpfsSupported := actuallyUsingOpfs }

/-- Model of the JavaScript `String.prototype.trim` used by the input guard
of `handleAddTodo` in `src/main.ts`: drop whitespace from both ends of the
character sequence. -/
def strTrim (s : String) : String :=
  ⟨((s.data.dropWhile Char.isWhitespace).reverse.dropWhile
      Char.isWhitespace).reverse⟩

/-- Embeds the input guard of `handleAddTodo` in `src/main.ts`: the handler
trims the input and returns without calling `addTodoItem` when the trimmed
content is empty.  The result says whether `addTodoItem` is reached. -/
def handleAddTodoSubmits (input : String) : Bool :=
  let content := strTrim input
  !(content == "")

/-- A concrete three-row table, one row completed, used by witnesses. -/
def demoTodos : List TodoItem :=
  [⟨1, "a", false, 1, 1⟩, ⟨2, "b", true, 2, 2⟩, ⟨3, "c", false, 3, 3⟩]

/-! Helper lemmas shared by several claims. -/

/-- On a live handle, `addTodoItem` never produces the not-initialized
guard error, whatever engine calls fail. -/
theorem addTodoItem_live_no_guard (env : Env) (st : DatabaseState) (eng : EngineState)
    (h : st.db = some eng) (content : String) (now : Nat) :
    (addTodoItem env st content now).1 ≠ .error .notInitialized := by
  obtain ⟨cf, sf, chf, clf, tf⟩ := env
  cases cf <;> cases sf <;> cases chf <;> cases clf <;> simp [addTodoItem, h]

/-- On a live handle, `getTodoItems` never produces the not-initialized
guard error, whatever engine calls fail. -/
theorem getTodoItems_live_no_guard (env : Env) (st : DatabaseState) (eng : EngineState)
    (h : st.db = some eng) :
    (getTodoItems env st).1 ≠ .error .notInitialized := by
  obtain ⟨cf, sf, chf, clf, tf⟩ := env
  cases cf <;> cases sf <;> cases chf <;> cases clf <;> simp [getTodoItems, h]

/-- A successful `closeDatabase` always leaves the handle null. -/
theorem closeDatabase_ok_nulls (env : Env) (st : DatabaseState)
    (hok : (closeDatabase env st).1 = .ok ()) :
    (closeDatabase env st).2.1.db = none := by
  cases hdb : st.db with
  | none => simp [closeDatabase, hdb]
  | some eng =>
    obtain ⟨cf, sf, chf, clf, tf⟩ := env
    cases cf <;> cases clf <;> cases tf <;>
      simp [closeDatabase, hdb] at hok ⊢

/-! Claims. -/

/-- C3: on a ConnectionState whose engine handle is null — before bootstrap
or after a completed shutdown — each of the five record-store operations
fails with the not-initialized error, leaves the state untouched and issues
no engine statement; and a successful shutdown indeed leaves the handle
null, so a post-shutdown state is rejected identically to a pre-bootstrap
one. -/
theorem claim3_null_handle_rejects_all (env : Env) (st : DatabaseState)
    (h : st.db = none) (content : String) (todoId now : Nat) :
    addTodoItem env st content now = (.error .notInitialized, st, []) ∧
    getTodoItems env st = (.error .notInitialized, st, []) ∧
    toggleTodoItem env st todoId now = (.error .notInitialized, st, []) ∧
    clearTodoItems env st = (.error .notInitialized, st, []) ∧
    clearCompletedTodoItems env st = (.error .notInitialized, st, []) ∧
    (∀ env2 st2, (closeDatabase env2 st2).1 = .ok () →
       (closeDatabase env2 st2).2.1.db = none) := by
  refine ⟨?_, ?_, ?_, ?_, ?_, fun env2 st2 hok => closeDatabase_ok_nulls env2 st2 hok⟩ <;>
    simp [addTodoItem, getTodoItems, toggleTodoItem, clearTodoItems,
      clearCompletedTodoItems, h]

/-- Witness for C3 at a concrete null-handle state. -/
theorem claim3_null_handle_rejects_all_witness :
    addTodoItem Env.ok ⟨none, false⟩ ("a") 0 =
      (.error .notInitialized, ⟨none, false⟩, []) :=
  (claim3_null_handle_rejects_all Env.ok ⟨none, false⟩ rfl ("a") 0 0).1

/-- C2: whenever one of the four mutating operations completes
successfully, the trace of engine statements it executed is exactly the
mutation statement followed by an explicit CHECKPOINT before the closing of
the connection — in any state, durable or volatile. -/
theorem claim2_mutations_always_checkpoint (env : Env) (st : DatabaseState)
    (content : String) (todoId now : Nat) :
    ((addTodoItem env st content now).1 = .ok () →
       (addTodoItem env st content now).2.2 =
         [.connect, .insertTodo content, .checkpoint, .close]) ∧
    ((toggleTodoItem env st todoId now).1 = .ok () →
       (toggleTodoItem env st todoId now).2.2 =
         [.connect, .updateToggle todoId, .checkpoint, .close]) ∧
    ((clearTodoItems env st).1 = .ok () →
       (clearTodoItems env st).2.2 =
         [.connect, .deleteAll, .checkpoint, .close]) ∧
    (∀ n, (clearCompletedTodoItems env st).1 = .ok n →
       (clearCompletedTodoItems env st).2.2 =
         [.connect, .countCompleted, .deleteCompleted, .checkpoint, .close]) := by
  obtain ⟨cf, sf, chf, clf, tf⟩ := env
  cases hdb : st.db <;>
    cases cf <;> cases sf <;> cases chf <;> cases clf <;>
      simp [addTodoItem, toggleTodoItem, clearTodoItems, clearCompletedTodoItems, hdb]

/-- Witness for C2: a successful `addTodoItem` run exhibits the
mutation-then-checkpoint trace. -/
theorem claim2_mutations_always_checkpoint_witness :
    (addTodoItem Env.ok ⟨some freshEngine, true⟩ ("x") 5).2.2 =
      [.connect, .insertTodo ("x"), .checkpoint, .close] :=
  (claim2_mutations_always_checkpoint Env.ok ⟨some freshEngine, true⟩ ("x") 0 5).1 rfl

/-- C9: `closeDatabase` is idempotent — on a null handle it is an error-free
no-op that issues no engine statement — and on a live handle, whether or not
the final checkpoint fails (its failure is only logged), it attempts the
checkpoint, closes the connection, terminates the engine and sets the
handle to null, in that order. -/
theorem claim9_shutdown_idempotent_and_ordered (env : Env) (st : DatabaseState) :
    (st.db = none → closeDatabase env st = (.ok (), st, [])) ∧
    (∀ eng, st.db = some eng → env.connectFails = false → env.closeFails = false →
       env.terminateFails = false →
       closeDatabase env st =
         (.ok (), { st with db := none },
          [.connect, .checkpoint, .close, .terminate])) := by
  constructor
  · intro h; simp [closeDatabase, h]
  · intro eng hdb hc hcl ht
    simp [closeDatabase, hdb, hc, hcl, ht]

/-- Witness for C9, with a failing checkpoint during a live shutdown. -/
theorem claim9_shutdown_idempotent_and_ordered_witness :
    closeDatabase ⟨false, false, true, false, false⟩ ⟨none, false⟩ =
      (.ok (), ⟨none, false⟩, []) ∧
    closeDatabase ⟨false, false, true, false, false⟩ ⟨some freshEngine, true⟩ =
      (.ok (), ⟨none, true⟩, [.connect, .checkpoint, .close, .terminate]) :=
  ⟨(claim9_shutdown_idempotent_and_ordered _ _).1 rfl,
   (claim9_shutdown_idempotent_and_ordered _ _).2 freshEngine rfl rfl rfl rfl⟩

/-- C10: when `closeDatabase` fails on a live handle (connection open,
connection close or engine termination throwing), the error is propagated
and the handle is left untouched, so the record-store operations on the
resulting state never fail with the not-initialized error; only a fully
successful shutdown sets the handle to null. -/
theorem claim10_failed_shutdown_keeps_handle (env : Env) (st : DatabaseState)
    (eng : EngineState) (hdb : st.db = some eng) :
    ((closeDatabase env st).1 = .ok () → (closeDatabase env st).2.1.db = none) ∧
    (∀ e, (closeDatabase env st).1 = .error e →
       (closeDatabase env st).2.1.db = some eng ∧
       (∀ env2 content now,
          (addTodoItem env2 (closeDatabase env st).2.1 content now).1 ≠
            .error .notInitialized) ∧
       (∀ env2, (getTodoItems env2 (closeDatabase env st).2.1).1 ≠
            .error .notInitialized)) := by
  refine ⟨closeDatabase_ok_nulls env st, fun e he => ?_⟩
  have hkeep : (closeDatabase env st).2.1.db = some eng := by
    obtain ⟨cf, sf, chf, clf, tf⟩ := env
    cases cf <;> cases clf <;> cases tf <;>
      simp [closeDatabase, hdb] at he ⊢
  exact ⟨hkeep,
    fun env2 content now => addTodoItem_live_no_guard env2 _ eng hkeep content now,
    fun env2 => getTodoItems_live_no_guard env2 _ eng hkeep⟩

/-- Witness for C10: a shutdown whose engine termination fails keeps the
handle live and a subsequent add is not rejected as uninitialized. -/
theorem claim10_failed_shutdown_keeps_handle_witness :
    (closeDatabase ⟨false, false, false, false, true⟩
        ⟨some freshEngine, true⟩).2.1.db = some freshEngine ∧
    (∀ env2 content now,
       (addTodoItem env2 (closeDatabase ⟨false, false, false, false, true⟩
           ⟨some freshEngine, true⟩).2.1 content now).1 ≠
         .error .notInitialized) :=
  ⟨((claim10_failed_shutdown_keeps_handle ⟨false, false, false, false, true⟩
      ⟨some freshEngine, true⟩ freshEngine rfl).2
      DbError.terminateFailure rfl).1,
   ((claim10_failed_shutdown_keeps_handle ⟨false, false, false, false, true⟩
      ⟨some freshEngine, true⟩ freshEngine rfl).2
      DbError.terminateFailure rfl).2.1⟩

/-- C1: when the durable (OPFS) open is attempted and fails while the rest
of the bootstrap works, `initializeDatabase` still returns a valid, usable
ConnectionState — live engine with the schema applied and
`isOpfsSupported = false` (volatile mode) — and no bootstrap error is
surfaced to the caller. -/
theorem claim1_durable_open_failure_falls_back (env : InitEnv)
    (options : DatabaseOptions)
    (hsup : env.opfsSupported = true)
    (hpath : strStartsWith (options.databasePath.getD ("opfs://test.db"))
      ("opfs://") = true)
    (hopen : env.opfsOpenFails = true)
    (hinst : env.instantiateFails = false)
    (hmem : env.memOpenFails = false)
    (hschema : env.schemaFails = false) :
    initializeDatabase env options =
      .ok { db := some freshEngine, isOpfsSupported := false } := by
  simp [initializeDatabase, hsup, hpath, hopen, hinst, hmem, hschema]

/-- Witness for C1 with the default database path and a failing durable
open. -/
theorem claim1_durable_open_failure_falls_back_witness :
    initializeDatabase ⟨true, false, true, false, false, freshEngine⟩ ⟨none⟩ =
      .ok { db := some freshEngine, isOpfsSupported := false } :=
  claim1_durable_open_failure_falls_back _ _ rfl (by decide) rfl rfl rfl rfl

/-- Splitting a list by a Bool predicate preserves the total length. -/
theorem filter_not_length {α : Type} (p : α → Bool) (l : List α) :
    (l.filter fun a => !p a).length + (l.filter p).length = l.length := by
  induction l with
  | nil => simp
  | cons a t ih => cases h : p a <;> simp [List.filter_cons, h] <;> omega

/-- C4: on a live handle, `getTodoItems` returns all stored rows (a
permutation of the table) ordered by `created_at` descending — strictly
descending when the timestamps are pairwise distinct — and an empty table
yields the empty list, not an error. -/
theorem claim4_list_ordered_newest_first (env : Env) (st : DatabaseState)
    (eng : EngineState) (hdb : st.db = some eng) (henv : env.allOk) :
    (getTodoItems env st).1 = .ok (sortByCreatedDesc eng.todos) ∧
    (sortByCreatedDesc eng.todos).Perm eng.todos ∧
    (sortByCreatedDesc eng.todos).Pairwise
      (fun a b => b.created_at ≤ a.created_at) ∧
    (eng.todos.Pairwise (fun a b => a.created_at ≠ b.created_at) →
      (sortByCreatedDesc eng.todos).Pairwise
        (fun a b => b.created_at < a.created_at)) ∧
    (eng.todos = [] → (getTodoItems env st).1 = .ok []) := by
  obtain ⟨h1, h2, h3, h4⟩ := henv
  have hperm : (sortByCreatedDesc eng.todos).Perm eng.todos :=
    List.mergeSort_perm eng.todos _
  have hsorted : (sortByCreatedDesc eng.todos).Pairwise
      (fun a b => b.created_at ≤ a.created_at) := by
    have hs := @List.sorted_mergeSort TodoItem
      (fun a b => Nat.ble b.created_at a.created_at)
      (fun a b c hab hbc => by simp only [Nat.ble_eq] at hab hbc ⊢; omega)
      (fun a b => by simp only [Bool.or_eq_true, Nat.ble_eq]; omega)
      eng.todos
    exact hs.imp (fun h => by simpa using h)
  refine ⟨by simp [getTodoItems, hdb, h1, h2, h3, h4], hperm, hsorted, ?_, ?_⟩
  · intro hdist
    have hdist2 : (sortByCreatedDesc eng.todos).Pairwise
        (fun a b => a.created_at ≠ b.created_at) :=
      (List.Perm.pairwise_iff (fun h => h.symm) hperm).mpr hdist
    exact (hsorted.and hdist2).imp
      (fun h => Nat.lt_of_le_of_ne h.1 (Ne.symm h.2))
  · intro h0
    simp [getTodoItems, hdb, h1, h2, h3, h4, h0, sortByCreatedDesc]

/-- Witness for C4 on a concrete two-row table. -/
theorem claim4_list_ordered_newest_first_witness :
    (getTodoItems Env.ok
        ⟨some ⟨[⟨1, "a", false, 5, 5⟩, ⟨2, "b", true, 9, 9⟩], 3⟩, true⟩).1 =
      .ok (sortByCreatedDesc [⟨1, "a", false, 5, 5⟩, ⟨2, "b", true, 9, 9⟩]) :=
  (claim4_list_ordered_newest_first Env.ok _
    ⟨[⟨1, "a", false, 5, 5⟩, ⟨2, "b", true, 9, 9⟩], 3⟩ rfl (by decide)).1

/-- C6: on a live table holding N rows of which M are completed,
`clearCompletedTodoItems` returns M, and a subsequent `getTodoItems`
returns N − M rows, all of them not completed. -/
theorem claim6_clearCompleted_count_accuracy (env env2 : Env)
    (st : DatabaseState) (eng : EngineState) (hdb : st.db = some eng)
    (henv : env.allOk) (henv2 : env2.allOk) :
    (clearCompletedTodoItems env st).1 =
      .ok ((eng.todos.filter fun r => r.completed).length) ∧
    ∃ l, (getTodoItems env2 (clearCompletedTodoItems env st).2.1).1 = .ok l ∧
      l.length =
        eng.todos.length - (eng.todos.filter fun r => r.completed).length ∧
      ∀ r ∈ l, r.completed = false := by
  obtain ⟨h1, h2, h3, h4⟩ := henv
  obtain ⟨g1, g2, g3, g4⟩ := henv2
  have hstate : (clearCompletedTodoItems env st).2.1.db =
      some (⟨eng.todos.filter (fun r => !r.completed), eng.seqNext⟩ :
        EngineState) := by
    simp [clearCompletedTodoItems, hdb, h1, h2, h3, h4]
  refine ⟨by simp [clearCompletedTodoItems, hdb, h1, h2, h3, h4],
    sortByCreatedDesc (eng.todos.filter fun r => !r.completed), ?_, ?_, ?_⟩
  · simp [getTodoItems, hstate, g1, g2, g3, g4]
  · have hlen := filter_not_length (fun r : TodoItem => r.completed) eng.todos
    simp only [sortByCreatedDesc, List.length_mergeSort]
    omega
  · intro r hr
    have hr2 : r ∈ eng.todos.filter (fun r => !r.completed) := by
      simpa [sortByCreatedDesc] using hr
    have := (List.mem_filter.mp hr2).2
    simpa using this

/-- Witness for C6 on a table with three rows, one completed. -/
theorem claim6_clearCompleted_count_accuracy_witness :
    (clearCompletedTodoItems Env.ok ⟨some ⟨demoTodos, 4⟩, false⟩).1 =
      .ok ((demoTodos.filter fun r => r.completed).length) :=
  (claim6_clearCompleted_count_accuracy Env.ok Env.ok _ ⟨demoTodos, 4⟩
    rfl (by decide) (by decide)).1

/-- Equation for a fully successful `toggleTodoItem` run on a live
handle. -/
theorem toggleTodoItem_ok_eq (env : Env) (st : DatabaseState)
    (eng : EngineState) (todoId now : Nat) (hdb : st.db = some eng)
    (h1 : env.connectFails = false) (h2 : env.stmtFails = false)
    (h3 : env.checkpointFails = false) (h4 : env.closeFails = false) :
    toggleTodoItem env st todoId now =
      (.ok (),
       { st with db := some ⟨eng.todos.map (toggleRow todoId now),
           eng.seqNext⟩ },
       [.connect, .updateToggle todoId, .checkpoint, .close]) := by
  simp [toggleTodoItem, hdb, h1, h2, h3, h4]

/-- C7: toggling an existing id twice in succession restores every matching
row to its original completed flag, while `updated_at` strictly increases
on each of the two calls; rows with other ids are untouched. -/
theorem claim7_double_toggle_restores (env1 env2 : Env) (st : DatabaseState)
    (eng : EngineState) (todoId t1 t2 : Nat) (hdb : st.db = some eng)
    (h1 : env1.allOk) (h2 : env2.allOk)
    (hts : ∀ r ∈ eng.todos, r.updated_at < t1) (ht : t1 < t2) :
    (toggleTodoItem env1 st todoId t1).1 = .ok () ∧
    (toggleTodoItem env2 (toggleTodoItem env1 st todoId t1).2.1 todoId t2).1 =
      .ok () ∧
    ∃ eng1 eng2,
      (toggleTodoItem env1 st todoId t1).2.1.db = some eng1 ∧
      (toggleTodoItem env2 (toggleTodoItem env1 st todoId t1).2.1 todoId
          t2).2.1.db = some eng2 ∧
      eng1.todos.length = eng.todos.length ∧
      eng2.todos.length = eng.todos.length ∧
      (∀ (i : Nat) (hi : i < eng.todos.length) (hi1 : i < eng1.todos.length)
          (hi2 : i < eng2.todos.length),
        (eng.todos[i].id = todoId →
          eng1.todos[i].completed = !eng.todos[i].completed ∧
          eng2.todos[i].completed = eng.todos[i].completed ∧
          eng.todos[i].updated_at < eng1.todos[i].updated_at ∧
          eng1.todos[i].updated_at < eng2.todos[i].updated_at) ∧
        (eng.todos[i].id ≠ todoId →
          eng1.todos[i] = eng.todos[i] ∧ eng2.todos[i] = eng.todos[i])) := by
  obtain ⟨a1, a2, a3, a4⟩ := h1
  obtain ⟨b1, b2, b3, b4⟩ := h2
  obtain ⟨db0, flag0⟩ := st
  simp only at hdb
  subst hdb
  have e1 := toggleTodoItem_ok_eq env1 ⟨some eng, flag0⟩ eng todoId t1 rfl
    a1 a2 a3 a4
  have e2 := toggleTodoItem_ok_eq env2
    ⟨some ⟨eng.todos.map (toggleRow todoId t1), eng.seqNext⟩, flag0⟩
    ⟨eng.todos.map (toggleRow todoId t1), eng.seqNext⟩ todoId t2 rfl
    b1 b2 b3 b4
  refine ⟨by simp [e1], by simp [e1, e2],
    ⟨eng.todos.map (toggleRow todoId t1), eng.seqNext⟩,
    ⟨(eng.todos.map (toggleRow todoId t1)).map (toggleRow todoId t2),
      eng.seqNext⟩,
    by simp [e1], by simp [e1, e2], by simp, by simp, ?_⟩
  intro i hi hi1 hi2
  have hmem : eng.todos[i] ∈ eng.todos := List.getElem_mem hi
  constructor
  · intro hid
    have hlt := hts _ hmem
    simp [List.getElem_map, toggleRow, hid, Bool.not_not]
    omega
  · intro hid
    simp [List.getElem_map, toggleRow, hid]

/-- Witness for C7 on a one-row table with id 1. -/
theorem claim7_double_toggle_restores_witness :
    (toggleTodoItem Env.ok ⟨some ⟨[⟨1, "a", false, 0, 0⟩], 2⟩, true⟩ 1 4).1 =
      .ok () ∧
    (toggleTodoItem Env.ok
        (toggleTodoItem Env.ok ⟨some ⟨[⟨1, "a", false, 0, 0⟩], 2⟩, true⟩
          1 4).2.1 1 9).1 = .ok () :=
  ⟨(claim7_double_toggle_restores Env.ok Env.ok _ ⟨[⟨1, "a", false, 0, 0⟩], 2⟩
      1 4 9 rfl (by decide) (by decide) (by decide) (by decide)).1,
   (claim7_double_toggle_restores Env.ok Env.ok _ ⟨[⟨1, "a", false, 0, 0⟩], 2⟩
      1 4 9 rfl (by decide) (by decide) (by decide) (by decide)).2.1⟩

/-- C8: toggling an id that matches no stored row on a live handle succeeds
(the zero-row update is not an error), leaves the ConnectionState exactly as
it was, and a subsequent `getTodoItems` is unchanged. -/
theorem claim8_toggle_missing_id_noop (env env2 : Env) (st : DatabaseState)
    (eng : EngineState) (todoId now : Nat) (hdb : st.db = some eng)
    (henv : env.allOk) (hmiss : ∀ r ∈ eng.todos, r.id ≠ todoId) :
    (toggleTodoItem env st todoId now).1 = .ok () ∧
    (toggleTodoItem env st todoId now).2.1 = st ∧
    getTodoItems env2 (toggleTodoItem env st todoId now).2.1 =
      getTodoItems env2 st := by
  obtain ⟨h1, h2, h3, h4⟩ := henv
  have hmap : eng.todos.map (toggleRow todoId now) = eng.todos := by
    have hfix : ∀ r ∈ eng.todos, toggleRow todoId now r = id r :=
      fun r hr => by simp [toggleRow, hmiss r hr]
    rw [List.map_congr_left hfix, List.map_id]
  have hstate : (toggleTodoItem env st todoId now).2.1 = st := by
    obtain ⟨db0, flag0⟩ := st
    simp only at hdb
    subst hdb
    simp [toggleTodoItem, h1, h2, h3, h4, hmap]
  exact ⟨by simp [toggleTodoItem, hdb, h1, h2, h3, h4], hstate,
    by rw [hstate]⟩

/-- Witness for C8 with id 999999 absent from the table. -/
theorem claim8_toggle_missing_id_noop_witness :
    (toggleTodoItem Env.ok ⟨some ⟨[⟨1, "a", false, 0, 0⟩], 2⟩, true⟩
        999999 4).1 = .ok () ∧
    (toggleTodoItem Env.ok ⟨some ⟨[⟨1, "a", false, 0, 0⟩], 2⟩, true⟩
        999999 4).2.1 = ⟨some ⟨[⟨1, "a", false, 0, 0⟩], 2⟩, true⟩ :=
  ⟨(claim8_toggle_missing_id_noop Env.ok Env.ok _ ⟨[⟨1, "a", false, 0, 0⟩], 2⟩
      999999 4 rfl (by decide) (by decide)).1,
   (claim8_toggle_missing_id_noop Env.ok Env.ok _ ⟨[⟨1, "a", false, 0, 0⟩], 2⟩
      999999 4 rfl (by decide) (by decide)).2.1⟩

/-- Counterexample to C5: `addTodoItem` performs no content validation, so
adding the empty string on a live handle succeeds and stores a row whose
content is empty — the claimed write-boundary rejection of empty content
does not exist in the code. -/
theorem claim5_counterexample_empty_content_stored :
    (addTodoItem Env.ok ⟨some freshEngine, true⟩ ("") 0).1 = .ok () ∧
    (addTodoItem Env.ok ⟨some freshEngine, true⟩ ("") 0).2.1.db =
      some ⟨[⟨1, "", false, 0, 0⟩], 2⟩ := by
  constructor <;> rfl

/-- C5 as amended: `addTodoItem` does not validate content — the empty
string is accepted and stored — and it fails only on a null engine handle;
non-emptiness is enforced solely by the UI guard of `handleAddTodo`, which
refuses to call `addTodoItem` exactly when the trimmed input is empty. -/
theorem claim5_amended_no_write_boundary_validation (env : Env)
    (st : DatabaseState) (eng : EngineState) (now : Nat)
    (hdb : st.db = some eng) (henv : env.allOk) :
    (addTodoItem env st ("") now).1 = .ok () ∧
    (addTodoItem env st ("") now).2.1.db =
      some ⟨eng.todos ++ [⟨eng.seqNext, "", false, now, now⟩],
        eng.seqNext + 1⟩ ∧
    (∀ st2 : DatabaseState, st2.db = none →
      (addTodoItem env st2 ("") now).1 = .error .notInitialized) ∧
    (∀ s : String, handleAddTodoSubmits s = false ↔ strTrim s = "") := by
  obtain ⟨h1, h2, h3, h4⟩ := henv
  refine ⟨by simp [addTodoItem, hdb, h1, h2, h3, h4],
    by simp [addTodoItem, hdb, h1, h2, h3, h4],
    fun st2 h0 => by simp [addTodoItem, h0], fun s => ?_⟩
  simp [handleAddTodoSubmits]

/-- Witness for the amended C5 on a fresh engine. -/
theorem claim5_amended_no_write_boundary_validation_witness :
    (addTodoItem Env.ok ⟨some freshEngine, false⟩ ("") 7).1 = .ok () ∧
    (addTodoItem Env.ok ⟨some freshEngine, false⟩ ("") 7).2.1.db =
      some ⟨freshEngine.todos ++ [⟨freshEngine.seqNext, "", false, 7, 7⟩],
        freshEngine.seqNext + 1⟩ :=
  ⟨(claim5_amended_no_write_boundary_validation Env.ok _ freshEngine 7 rfl
      (by decide)).1,
   (claim5_amended_no_write_boundary_validation Env.ok _ freshEngine 7 rfl
      (by decide)).2.1⟩

end DuckDbTodo
